import Mathlib

/-!
Shallow embedding of the automated booking core of the
Property-Managment-Backend repository (Express/Mongoose), covering:

* `src/services/googleCalendar.js` — availability oracle and slot generator;
* the Agent mongoose schema (working days/hours, meeting duration, buffer,
  `getNextAvailableSlots`);
* `src/models/Lead.js` and `src/models/Meeting.js` — validation relevant to
  the booking flow;
* `src/controllers/bookingController.js` — `createAutomatedBooking`;
* `src/controllers/leadController.js` — `handleWebhookLead`.

Modelling conventions:

* Instants are `Nat` minutes since an epoch whose day 0 is a Monday; the
  source works in milliseconds (`60 * 60000` ms = 60 minutes here).
* External calls (Google freebusy query, event insertion) are parameters of
  type `Except` capturing either the parsed payload or a thrown error.
* Mongoose documents are structures; `save`/`create` validation is modelled
  by executable validators mirroring the schema declarations.  The email
  format regex of the schemas is not modelled (it only rejects malformed
  email strings; every scenario below uses well-formed emails).
-/

namespace PMB

/-- Minutes in a day. -/
def minutesPerDay : Nat := 1440

/-- Day index of an instant. -/
def dayOf (t : Nat) : Nat := t / minutesPerDay

/-- Lowercase weekday name of a day index; epoch day 0 is a Monday.  This is
the value the source evidently intends to compare against the Agent schema
`workingDays` enum (`monday` … `sunday`). -/
def weekdayName (day : Nat) : String :=
  match day % 7 with
  | 0 => "monday"
  | 1 => "tuesday"
  | 2 => "wednesday"
  | 3 => "thursday"
  | 4 => "friday"
  | 5 => "saturday"
  | _ => "sunday"

/-- Lowercase weekday name of an instant. -/
def dateWeekday (t : Nat) : String := weekdayName (dayOf t)

/-- Model of JavaScript `date.setHours(h, m, 0, 0)`: same day, given
time-of-day. -/
def setHours (t h m : Nat) : Nat := dayOf t * minutesPerDay + h * 60 + m

/-- Midnight of the day after the day of `t` (the lookahead generator does
`currentDate.setDate(currentDate.getDate() + 1); currentDate.setHours(0,0,0,0)`). -/
def nextMidnight (t : Nat) : Nat := (dayOf t + 1) * minutesPerDay

/-- A thrown JavaScript error. -/
inductive JsError where
  | typeError
  | thrown (msg : String)
deriving Repr, DecidableEq

/-- The source computes the weekday of a date as
`date.toLocaleLowerCase(...)` (googleCalendar.js line 160 and the Agent
schema methods).  `Date.prototype` has no `toLocaleLowerCase` method, so
evaluating this expression throws a `TypeError` for every date. -/
def dateToLocaleLowerCase (_t : Nat) : Except JsError String :=
  .error .typeError

/-- Split a character list at a separator (auxiliary for `parseHM`;
structurally recursive so that proofs can evaluate it). -/
def splitCharsOn (sep : Char) : List Char → List Char → List (List Char)
  | [], acc => [acc.reverse]
  | c :: cs, acc =>
    if c = sep then acc.reverse :: splitCharsOn sep cs []
    else splitCharsOn sep cs (c :: acc)

/-- Decimal value of a digit list (`none` on empty or non-digit input),
mirroring JavaScript `Number` on the well-formed `HH`/`MM` components. -/
def charsToNatAux : List Char → Nat → Option Nat
  | [], acc => some acc
  | c :: cs, acc =>
    if c.isDigit then charsToNatAux cs (acc * 10 + (c.toNat - 48)) else none

/-- Decimal value of a character list. -/
def charsToNat (cs : List Char) : Option Nat :=
  if cs.isEmpty then none else charsToNatAux cs 0

/-- Parse an `HH:MM` working-hours string, as
`agent.workingHours.start.split(':').map(Number)` does. -/
def parseHM (s : String) : Nat × Nat :=
  match splitCharsOn ':' s.data [] with
  | [h, m] => ((charsToNat h).getD 0, (charsToNat m).getD 0)
  | _ => (0, 0)

/-- Working hours of an agent; `stop` models the source field
`workingHours.end` (`end` is a Lean keyword). -/
structure WorkingHours where
  start : String
  stop : String
deriving Repr, DecidableEq

/-- An Agent record (mongoose Agent schema).  `creds` summarises the outcome
of `setAgentCredentials(agentId)`: `.ok calendarId` when the stored tokens
resolve to a calendar id, `.error` when the agent has no access token or the
token refresh throws. -/
structure Agent where
  name : String
  email : String
  phone : Option String
  isActive : Bool
  googleCalendarId : Option String
  creds : Except String String
  workingHours : WorkingHours
  workingDays : List String
  meetingDuration : Nat
  bufferTime : Nat
  totalMeetings : Nat
deriving Repr

/-- A busy interval reported by the provider freebusy query. -/
structure BusyInterval where
  start : Nat
  stop : Nat
deriving Repr, DecidableEq

/-- The external Google Calendar API, as consumed by the service:
`busy calendarId timeMin timeMax` is the freebusy query (either the busy
list of that calendar between those exact instants, or a thrown error);
`reserve` is the outcome of `calendar.events.insert` (event id and html
link, or a thrown error). -/
structure CalendarProvider where
  busy : String → Nat → Nat → Except String (List BusyInterval)
  reserve : Except String (String × String)

/-- `GoogleCalendarService.checkAvailability` (googleCalendar.js lines
129-149): resolve credentials, freebusy-query the exact window, available
iff no busy slot; any thrown error is caught and the function returns
`true` (fail-open). -/
def checkAvailability (agent : Agent) (p : CalendarProvider)
    (startTime endTime : Nat) : Bool :=
  match agent.creds with
  | .error _ => true
  | .ok calendarId =>
    match p.busy calendarId startTime endTime with
    | .error _ => true
    | .ok busySlots => busySlots.length == 0

/-- A candidate slot produced by the per-day generator; `stop` models the
source field `end`. -/
structure Slot where
  start : Nat
  stop : Nat
deriving Repr, DecidableEq

/-- The while-loop of `getAvailableSlots` (googleCalendar.js lines 176-191):
starting at `cur`, emit `(cur, cur + dur)` whenever the availability check
passes and the slot end does not exceed `endT`, then advance the cursor by
`dur + buf`.  `fuel` bounds the number of iterations: the JS loop runs
until `cur ≥ endT`, which is reached within `endT - cur` iterations whenever
`dur + buf ≥ 1` (proved below); for `dur + buf = 0` the JS loop never
terminates, which the model reflects by exhausting its fuel. -/
def slotsFuel (avail : Nat → Nat → Bool) (dur buf endT : Nat) :
    Nat → Nat → List Slot
  | 0, _ => []
  | fuel + 1, cur =>
    if cur < endT then
      let slotEnd := cur + dur
      let rest := slotsFuel avail dur buf endT fuel (slotEnd + buf)
      if avail cur slotEnd && decide (slotEnd ≤ endT) then
        ⟨cur, slotEnd⟩ :: rest
      else rest
    else []

/-- Body of `getAvailableSlots` after the weekday name has been computed:
the working-day guard, the working-hours parse, and the slot loop. -/
def getAvailableSlotsBody (agent : Agent) (p : CalendarProvider)
    (date duration : Nat) (dayName : String) : List Slot :=
  if agent.workingDays.contains dayName then
    let sh := parseHM agent.workingHours.start
    let eh := parseHM agent.workingHours.stop
    let cur := setHours date sh.1 sh.2
    let endT := setHours date eh.1 eh.2
    slotsFuel (fun s e => checkAvailability agent p s e)
      duration agent.bufferTime endT (endT + 1) cur
  else []

/-- `GoogleCalendarService.getAvailableSlots` before its catch handler
(googleCalendar.js lines 152-193): resolve credentials (rethrows on
failure), compute the weekday name (throws: see `dateToLocaleLowerCase`),
then run the day guard and the slot loop. -/
def getAvailableSlotsE (agent : Agent) (p : CalendarProvider)
    (date duration : Nat) : Except JsError (List Slot) :=
  match agent.creds with
  | .error e => .error (.thrown e)
  | .ok _ =>
    match dateToLocaleLowerCase date with
    | .error e => .error e
    | .ok dayName => .ok (getAvailableSlotsBody agent p date duration dayName)

/-- `GoogleCalendarService.getAvailableSlots` with its catch handler
(lines 194-197): any thrown error is logged and `[]` is returned. -/
def getAvailableSlots (agent : Agent) (p : CalendarProvider)
    (date duration : Nat) : List Slot :=
  match getAvailableSlotsE agent p date duration with
  | .error _ => []
  | .ok slots => slots

/-- The per-day generator with the weekday computed as the lowercase weekday
name of the requested date — the value the source expression
`date.toLocaleLowerCase('en-US', ...)` is evidently meant to produce (the
shipped expression throws instead, so the shipped function returns `[]` for
every input; this variant exists to compare the code against the intended
behaviour the spec describes). -/
def getAvailableSlotsFixed (agent : Agent) (p : CalendarProvider)
    (date duration : Nat) : List Slot :=
  match agent.creds with
  | .error _ => []
  | .ok _ => getAvailableSlotsBody agent p date duration (dateWeekday date)

/-- The inner while-loop of the Agent schema method `getNextAvailableSlots`:
starting at `slotTime`, while `slotTime < endT` and fewer than `count` slots
have been collected, push `slotTime` when it is strictly in the future, then
advance by `step = meetingDuration + bufferTime`.  Note: no check that
`slotTime + meetingDuration ≤ endT` is performed before pushing.  Fuel as in
`slotsFuel`. -/
def nextSlotsInner (now step endT count : Nat) :
    Nat → Nat → List Nat → List Nat
  | 0, _, acc => acc
  | fuel + 1, slotTime, acc =>
    if slotTime < endT && acc.length < count then
      let acc2 := if now < slotTime then acc ++ [slotTime] else acc
      nextSlotsInner now step endT count fuel (slotTime + step) acc2
    else acc

/-- The day loop of `getNextAvailableSlots` (Agent schema): look ahead up to
seven days; for each day compute the weekday name (`dayNameOf`, a parameter
so the faithful and the intended weekday computation share this
translation), collect slots on working days, then move to the next
midnight. -/
def nextSlotsDays (agent : Agent) (now count : Nat)
    (dayNameOf : Nat → Except JsError String) :
    Nat → Nat → List Nat → Except JsError (List Nat)
  | 0, _, acc => .ok acc
  | daysLeft + 1, currentDate, acc =>
    if acc.length < count then
      match dayNameOf currentDate with
      | .error e => .error e
      | .ok dayName =>
        let acc2 :=
          if agent.workingDays.contains dayName then
            let sh := parseHM agent.workingHours.start
            let eh := parseHM agent.workingHours.stop
            let startT := setHours currentDate sh.1 sh.2
            let endT := setHours currentDate eh.1 eh.2
            nextSlotsInner now (agent.meetingDuration + agent.bufferTime)
              endT count (endT + 1) startT acc
          else acc
        nextSlotsDays agent now count dayNameOf daysLeft
          (nextMidnight currentDate) acc2
    else .ok acc

/-- `agentSchema.methods.getNextAvailableSlots(startDate, count)` as
shipped: the first day iteration evaluates
`currentDate.toLocaleLowerCase(...)`, which throws. -/
def getNextAvailableSlotsE (agent : Agent) (now startDate count : Nat) :
    Except JsError (List Nat) :=
  nextSlotsDays agent now count dateToLocaleLowerCase 7 startDate []

/-- The lookahead generator with the weekday computed as the lowercase
weekday name (the intended behaviour; the shipped computation throws).
With a total weekday function the day loop never errors, so the error
branch of the match is unreachable. -/
def getNextAvailableSlotsFixed (agent : Agent) (now startDate count : Nat) :
    List Nat :=
  match nextSlotsDays agent now count (fun d => .ok (dateWeekday d))
      7 startDate [] with
  | .ok slots => slots
  | .error _ => []

/-- Working-day start instant of an agent on the day of `date`. -/
def workStartOn (agent : Agent) (date : Nat) : Nat :=
  setHours date (parseHM agent.workingHours.start).1
    (parseHM agent.workingHours.start).2

/-- Working-day end instant of an agent on the day of `date`
(`workingHours.end` of the schema). -/
def workEndOn (agent : Agent) (date : Nat) : Nat :=
  setHours date (parseHM agent.workingHours.stop).1
    (parseHM agent.workingHours.stop).2

/-! ## Record store: Lead, Meeting, Property -/

/-- ASCII lowercasing of one character (JavaScript `toLowerCase` on the
ASCII range; structurally evaluable). -/
def asciiLower (c : Char) : Char :=
  if 65 ≤ c.toNat ∧ c.toNat ≤ 90 then Char.ofNat (c.toNat + 32) else c

/-- Mongoose `lowercase: true` on the Lead email path: values are lowercased
by a setter, both when stored and when used in a query filter (setters run
on query filter values). -/
def normalizeEmail (s : String) : String := ⟨s.data.map asciiLower⟩

/-- Trim leading and trailing whitespace (JavaScript `String.prototype.trim`;
structurally evaluable). -/
def jsTrim (s : String) : String :=
  ⟨((s.data.dropWhile Char.isWhitespace).reverse.dropWhile
      Char.isWhitespace).reverse⟩

/-- The `source` enum of the Lead schema (Lead.js lines 28-33). -/
def allowedLeadSources : List String :=
  ["Zillow", "Realtor.com", "Website", "Referral", "Organic", "Other"]

/-- The `status` enum of the Lead schema. -/
def leadStatuses : List String := ["New", "Contacted", "Nurturing", "Closed"]

/-- A Lead document (mongoose Lead schema, the paths the booking and webhook
flows touch). -/
structure Lead where
  name : String
  email : String
  phone : Option String
  source : String
  assignedTo : String
  budget : Option Nat
  preferredPropertyType : Option String
  timeline : Option String
  notes : Option String
  status : String
  lastContacted : Nat
deriving Repr, DecidableEq

/-- Lead schema validation as run by `create`/`save`: required fields,
maxlength bounds, and the `source`/`status` enums.  (The email format regex
of the schema is not modelled.) -/
def leadValidate (l : Lead) : Bool :=
  l.name ≠ "" && l.name.length ≤ 100 &&
  l.email ≠ "" &&
  (match l.phone with | some s => s.length ≤ 20 | none => true) &&
  allowedLeadSources.contains l.source &&
  leadStatuses.contains l.status &&
  l.assignedTo ≠ "" &&
  (match l.preferredPropertyType with | some s => s.length ≤ 100 | none => true) &&
  (match l.timeline with | some s => s.length ≤ 100 | none => true) &&
  (match l.notes with | some s => s.length ≤ 1000 | none => true)

/-- The `status` enum of the Meeting schema. -/
def meetingStatuses : List String := ["Scheduled", "Completed", "Missed"]

/-- A Meeting document as held in memory by the controller: the declared
schema paths plus arbitrary JavaScript property assignments made on the
document object (`jsProps`); with mongoose strict mode (the default) only
schema paths are persisted. -/
structure MeetingDoc where
  leadName : String
  propertyAddress : String
  dateTime : Nat
  status : String
  notes : String
  assignedTo : String
  jsProps : List (String × Option String) := []
deriving Repr, DecidableEq

/-- A persisted Meeting record: exactly the declared schema paths
(Meeting.js lines 3-42).  There is no field for an external calendar event
reference. -/
structure MeetingRecord where
  leadName : String
  propertyAddress : String
  dateTime : Nat
  status : String
  notes : String
  assignedTo : String
deriving Repr, DecidableEq

/-- The controller line `meeting[0].calendarEventId = calendarEvent.eventId`
(bookingController.js line 207): a plain JavaScript property assignment on
the document; `calendarEventId` is not a Meeting schema path. -/
def setCalendarEventId (d : MeetingDoc) (v : Option String) : MeetingDoc :=
  { d with jsProps := d.jsProps ++ [("calendarEventId", v)] }

/-- Meeting schema validation: required fields, the `status` enum, and the
`dateTime` validator `value > new Date()`. -/
def meetingValidate (now : Nat) (d : MeetingDoc) : Bool :=
  d.leadName ≠ "" && d.propertyAddress ≠ "" &&
  meetingStatuses.contains d.status &&
  d.assignedTo ≠ "" && now < d.dateTime

/-- `Meeting.create` / `document.save()`: validate, then persist the schema
paths only (strict mode drops `jsProps`); a failed validation throws a
`ValidationError`. -/
def meetingSave (now : Nat) (d : MeetingDoc) : Except String MeetingRecord :=
  if meetingValidate now d then
    .ok ⟨d.leadName, d.propertyAddress, d.dateTime, d.status, d.notes,
      d.assignedTo⟩
  else .error "ValidationError"

/-- A Property record (the fields the booking flow reads). -/
structure Property where
  id : String
  address : String
  price : Nat
deriving Repr, DecidableEq

/-- The record store the controllers operate on. -/
structure Store where
  properties : List Property
  leads : List Lead
  meetings : List MeetingRecord
  agents : List Agent

/-- `Property.findById`. -/
def findProperty (store : Store) (pid : String) : Option Property :=
  store.properties.find? (fun pr => pr.id == pid)

/-- `Lead.findOne(\x7b email \x7d)`: the first stored lead whose (already
lowercased) email equals the lowercased query value. -/
def findLeadByEmail (store : Store) (email : String) : Option Lead :=
  store.leads.find? (fun l => l.email == normalizeEmail email)

/-- The agent discovery filter of the booking flow:
`Agent.find(\x7b isActive: true, googleCalendarId: \x7b $exists: true \x7d \x7d)`. -/
def bookable (a : Agent) : Bool := a.isActive && a.googleCalendarId.isSome

/-! ## The booking orchestrator (`createAutomatedBooking`) -/

/-- Truthiness of an optional string request field (JavaScript: `undefined`
and the empty string are falsy). -/
def truthyS : Option String → Bool
  | some s => s ≠ ""
  | none => false

/-- An inbound booking request body.  `propertyId = none` models a missing
or falsy `propertyId` field. -/
structure BookingRequest where
  name : String
  email : String
  phone : Option String
  source : Option String
  budget : Option Nat
  preferredPropertyType : Option String
  timeline : Option String
  notes : Option String
  propertyId : Option String
  preferredDateTime : Option Nat
deriving Repr

/-- Outcome tiers reported by the booking endpoint. -/
inductive BookingStatus where
  | leadOnly
  | fullyBooked
deriving Repr, DecidableEq

/-- The observable response of the booking endpoint (the fields the claims
are about). -/
structure BookingResponse where
  status : Nat
  success : Bool
  message : String
  bookingStatus : Option BookingStatus := none
  meetingDateTime : Option Nat := none
  calendarLink : Option String := none
  existingLeadName : Option String := none
  existingLeadStatus : Option String := none
  agentName : Option String := none
  propertyAddress : Option String := none
deriving Repr, DecidableEq

/-- The transaction and notification events of one `createAutomatedBooking`
execution, in execution order.  The trace records exactly the events whose
relative order the fan-out/commit claims are about. -/
inductive Step where
  | commitTransaction
  | abortTransaction
  | sendMeetingConfirmation
  | notifyAgentOfNewMeeting
  | sendSMS
  | socketNotifyAgent
  | socketNotifyAdmin
deriving Repr, DecidableEq

/-- The notification fan-out steps. -/
def isNotification : Step → Bool
  | .sendMeetingConfirmation => true
  | .notifyAgentOfNewMeeting => true
  | .sendSMS => true
  | .socketNotifyAgent => true
  | .socketNotifyAdmin => true
  | _ => false

/-- The claim predicate of the temporal claim: every step before the first
`commitTransaction` of the trace is a non-notification (so the commit
precedes every notification dispatch). -/
def commitPrecedesNotifications (tr : List Step) : Bool :=
  (tr.takeWhile (fun s => s != Step.commitTransaction)).all
    (fun s => !(isNotification s))

/-- The meeting duration used by `createAutomatedBooking`
(bookingController.js line 110). -/
def bookingMeetingDuration : Nat := 60

/-- The lead document built by `Lead.create` in the booking flow
(bookingController.js lines 66-77). -/
def mkBookingLead (now : Nat) (req : BookingRequest) : Lead :=
  { name := req.name
    email := normalizeEmail req.email
    phone := req.phone
    source := req.source.getD "Website"
    assignedTo := "Auto-assigned"
    budget := req.budget
    preferredPropertyType := req.preferredPropertyType
    timeline := req.timeline
    notes := req.notes
    status := "New"
    lastContacted := now }

/-- The meeting document built by `Meeting.create` in the booking flow
(bookingController.js lines 176-183). -/
def mkMeetingDoc (req : BookingRequest) (property : Property) (lead : Lead)
    (agent : Agent) (slot : Slot) : MeetingDoc :=
  { leadName := lead.name
    propertyAddress := property.address
    dateTime := slot.start
    status := "Scheduled"
    notes := jsTrim ("Auto-booked via website form. " ++ req.notes.getD "")
    assignedTo := agent.name }

/-- The preferred-time selection loop (bookingController.js lines 113-130):
iterate the candidate agents in store order; the first agent whose calendar
is available for exactly `[preferredTime, preferredTime + 60min)` wins, with
that exact window. -/
def selectPreferred (agents : List Agent) (p : CalendarProvider)
    (preferredTime : Nat) : Option (Agent × Slot) :=
  (agents.find? (fun agent =>
      checkAvailability agent p preferredTime
        (preferredTime + bookingMeetingDuration))).map
    (fun agent => (agent, ⟨preferredTime, preferredTime + bookingMeetingDuration⟩))

/-- The fallback selection loop (bookingController.js lines 133-149):
iterate the candidate agents; the first agent with a non-empty slot list
wins, paired with its first slot. -/
def selectFromSlots (slotsFor : Agent → Nat → Nat → List Slot) :
    List Agent → Nat → Option (Agent × Slot)
  | [], _ => none
  | agent :: rest, startDate =>
    match slotsFor agent startDate bookingMeetingDuration with
    | [] => selectFromSlots slotsFor rest startDate
    | slot :: _ => some (agent, slot)

/-- Agent/slot selection of `createAutomatedBooking` (lines 107-149): try
the preferred window first when a preferred time is supplied; otherwise (or
when no agent is free at the preferred window) scan for the first agent
with available generated slots, starting from the preferred time or from
now. -/
def selectAgentSlot (slotsFor : Agent → Nat → Nat → List Slot)
    (p : CalendarProvider) (now : Nat) (preferredDateTime : Option Nat)
    (agents : List Agent) : Option (Agent × Slot) :=
  let preferred := match preferredDateTime with
    | some t => selectPreferred agents p t
    | none => none
  match preferred with
  | some x => some x
  | none => selectFromSlots slotsFor agents (preferredDateTime.getD now)

/-- The notification fan-out block (bookingController.js lines 214-272), as
the sequence of dispatch events it performs: lead confirmation, agent
notification, SMS when the lead has a phone number, then the two real-time
socket pushes.  Failures inside the block are caught and logged
(`notificationError`) and change neither the store nor the response. -/
def notifSteps (req : BookingRequest) : List Step :=
  [Step.sendMeetingConfirmation, Step.notifyAgentOfNewMeeting] ++
  (if truthyS req.phone then [Step.sendSMS] else []) ++
  [Step.socketNotifyAgent, Step.socketNotifyAdmin]

/-- The tail of the booking flow once an agent and a slot have been selected
(bookingController.js lines 171-304): persist the lead assignment, create
the meeting, attempt the external calendar reservation (non-fatal: a thrown
error is caught and a null event reference is used), write the event id
onto the meeting document and save it, bump the agent counter, run the
notification fan-out, commit, and respond `201 fully_booked`.  `store0` is
the store as of the transaction start; abort paths return it unchanged. -/
def finalizeBooking (p : CalendarProvider) (now : Nat) (req : BookingRequest)
    (store0 : Store) (property : Property) (newLead : Lead) (agent : Agent)
    (slot : Slot) : BookingResponse × Store × List Step :=
  let assigned := { newLead with assignedTo := agent.name }
  if leadValidate assigned then
    let doc := mkMeetingDoc req property newLead agent slot
    match meetingSave now doc with
    | .error _ =>
      (⟨400, false, "Validation Error", none, none, none, none, none, none,
        none⟩, store0, [Step.abortTransaction])
    | .ok _ =>
      let calendarEvent : Option String × Option String :=
        match p.reserve with
        | .error _ => (none, none)
        | .ok ev => (some ev.1, some ev.2)
      let doc2 := setCalendarEventId doc calendarEvent.1
      match meetingSave now doc2 with
      | .error _ =>
        (⟨400, false, "Validation Error", none, none, none, none, none, none,
          none⟩, store0, [Step.abortTransaction])
      | .ok m =>
        let agents2 := store0.agents.map (fun a =>
          if a.email == agent.email then
            { a with totalMeetings := a.totalMeetings + 1 }
          else a)
        let store2 : Store :=
          { properties := store0.properties
            leads := store0.leads ++ [assigned]
            meetings := store0.meetings ++ [m]
            agents := agents2 }
        (⟨201, true, "Booking created successfully!", some .fullyBooked,
          some m.dateTime, calendarEvent.2, none, none, some agent.name,
          some property.address⟩, store2,
          notifSteps req ++ [Step.commitTransaction])
  else
    (⟨400, false, "Validation Error", none, none, none, none, none, none,
      none⟩, store0, [Step.abortTransaction])

/-- `createAutomatedBooking` (bookingController.js lines 12-327),
parameterised over the per-day slot source used by the fallback selection
(`googleCalendar.getAvailableSlots` in the source).  Returns the response,
the store after the request (transaction committed or rolled back), and the
trace of transaction/notification events. -/
def createAutomatedBookingWith (slotsFor : Agent → Nat → Nat → List Slot)
    (p : CalendarProvider) (now : Nat) (req : BookingRequest)
    (store : Store) : BookingResponse × Store × List Step :=
  if req.name == "" || req.email == "" || req.propertyId.isNone then
    (⟨400, false, "Name, email, and property ID are required", none, none,
      none, none, none, none, none⟩, store, [])
  else
    match findProperty store (req.propertyId.getD "") with
    | none =>
      (⟨404, false, "Property not found", none, none, none, none, none,
        none, none⟩, store, [])
    | some property =>
      match findLeadByEmail store req.email with
      | some l =>
        (⟨409, false,
          "A lead with this email already exists. Please contact us directly.",
          none, none, none, some l.name, some l.status, none, none⟩,
          store, [])
      | none =>
        let newLead := mkBookingLead now req
        if leadValidate newLead then
          let availableAgents := store.agents.filter bookable
          if availableAgents.isEmpty then
            (⟨200, true,
              "Lead created successfully. No agents currently available for booking.",
              some .leadOnly, none, none, none, none, none, none⟩,
              { store with leads := store.leads ++ [newLead] },
              [Step.commitTransaction])
          else
            match selectAgentSlot slotsFor p now req.preferredDateTime
                availableAgents with
            | none =>
              (⟨200, true,
                "Lead created successfully. No available time slots found.",
                some .leadOnly, none, none, none, none, none, none⟩,
                { store with leads := store.leads ++ [newLead] },
                [Step.commitTransaction])
            | some (agent, slot) =>
              finalizeBooking p now req store property newLead agent slot
        else
          (⟨400, false, "Validation Error", none, none, none, none, none,
            none, none⟩, store, [Step.abortTransaction])

/-- The shipped `createAutomatedBooking`: the fallback selection consults
the shipped `getAvailableSlots`. -/
def createAutomatedBooking (p : CalendarProvider) (now : Nat)
    (req : BookingRequest) (store : Store) :
    BookingResponse × Store × List Step :=
  createAutomatedBookingWith (fun a d dur => getAvailableSlots a p d dur)
    p now req store

/-- The booking flow with the intended weekday computation in the slot
generator (see `getAvailableSlotsFixed`). -/
def createAutomatedBookingFixed (p : CalendarProvider) (now : Nat)
    (req : BookingRequest) (store : Store) :
    BookingResponse × Store × List Step :=
  createAutomatedBookingWith (fun a d dur => getAvailableSlotsFixed a p d dur)
    p now req store

/-! ## The webhook ingestion path (`handleWebhookLead`) -/

/-- A webhook submission body (leadController.js lines 267-284).  The model
covers bodies without the `propertyId`+`preferredDateTime` pair: when both
are present the create path additionally attempts an automated booking
through `createAutomatedBooking` with the just-created lead, which can only
add Meeting records (its duplicate-email branch fires for the lead itself)
and whose errors are caught; it never creates or updates a Lead record.
The webhook also carries `externalId` and `sourceSystem`, which the update
and create paths assign, but neither is a Lead schema path, so strict mode
drops them on save; they are omitted here. -/
structure WebhookRequest where
  name : String
  email : String
  phone : Option String
  source : Option String
  budget : Option Nat
  preferredPropertyType : Option String
  timeline : Option String
  notes : Option String
deriving Repr

/-- The observable response of the webhook endpoint. -/
structure WebhookResponse where
  status : Nat
  success : Bool
  message : String
  action : Option String := none
deriving Repr, DecidableEq

/-- The merge performed on an existing lead by a webhook re-submission
(leadController.js lines 305-314): `source` and `lastContacted` always;
`notes`, `budget`, `preferredPropertyType`, `timeline` only when the
submission carries a truthy value.  The `source` default is the string
`Webhook` (line 272). -/
def webhookMergedLead (now : Nat) (req : WebhookRequest) (lead : Lead) :
    Lead :=
  { lead with
    source := req.source.getD "Webhook"
    lastContacted := now
    notes := if truthyS req.notes then req.notes else lead.notes
    budget := if req.budget.isSome then req.budget else lead.budget
    preferredPropertyType :=
      if truthyS req.preferredPropertyType then req.preferredPropertyType
      else lead.preferredPropertyType
    timeline := if truthyS req.timeline then req.timeline else lead.timeline }

/-- The lead document built by `Lead.create` on the webhook create path
(leadController.js lines 332-346). -/
def mkWebhookLead (now : Nat) (req : WebhookRequest) : Lead :=
  { name := req.name
    email := normalizeEmail req.email
    phone := req.phone
    source := req.source.getD "Webhook"
    assignedTo := "Auto-assigned"
    budget := req.budget
    preferredPropertyType := req.preferredPropertyType
    timeline := req.timeline
    notes := req.notes
    status := "New"
    lastContacted := now }

/-- `handleWebhookLead` (leadController.js lines 265-441): validate
name+email, then either merge into the existing lead with the same email
(responding `200` with action `updated`) or create a new lead (responding
`201` with action `created`).  A mongoose `ValidationError` thrown by
`save`/`create` is caught and answered with `400 Validation Error`
(lines 426-433); the store is then unchanged, since the rejected write is
the only one attempted. -/
def handleWebhookLead (now : Nat) (req : WebhookRequest) (store : Store) :
    WebhookResponse × Store :=
  if req.name == "" || req.email == "" then
    (⟨400, false, "Name and email are required", none⟩, store)
  else
    match findLeadByEmail store req.email with
    | some lead =>
      let updated := webhookMergedLead now req lead
      if leadValidate updated then
        (⟨200, true, "Lead updated successfully", some "updated"⟩,
          { store with leads := store.leads.map (fun l =>
              if l.email == lead.email then updated else l) })
      else
        (⟨400, false, "Validation Error", none⟩, store)
    | none =>
      let newLead := mkWebhookLead now req
      if leadValidate newLead then
        (⟨201, true, "Lead created successfully", some "created"⟩,
          { store with leads := store.leads ++ [newLead] })
      else
        (⟨400, false, "Validation Error", none⟩, store)

/-- Number of stored leads whose email is `e`. -/
def leadCountByEmail (store : Store) (e : String) : Nat :=
  (store.leads.filter (fun l => l.email == e)).length

/-! ## Concrete scenarios

Instants are minutes; day 0 is a Monday, so `540` is Monday 09:00 and
`1440` is Tuesday 00:00. -/

/-- A calendar provider whose freebusy query always succeeds with no busy
events and whose event insertion succeeds. -/
def freeProvider : CalendarProvider :=
  { busy := fun _ _ _ => .ok []
    reserve := .ok ("evt-1", "https://calendar/evt-1") }

/-- As `freeProvider`, but event insertion throws (scenario D). -/
def reserveFailProvider : CalendarProvider :=
  { busy := fun _ _ _ => .ok []
    reserve := .error "Failed to create calendar event" }

/-- Agent Jane of end-to-end scenario A: active, calendar-linked,
Monday-Friday 09:00-17:00, 60-minute meetings, 15-minute buffer. -/
def jane : Agent :=
  { name := "Jane"
    email := "jane@realty.com"
    phone := some "555-0100"
    isActive := true
    googleCalendarId := some "cal-jane"
    creds := .ok "cal-jane"
    workingHours := ⟨"09:00", "17:00"⟩
    workingDays := ["monday", "tuesday", "wednesday", "thursday", "friday"]
    meetingDuration := 60
    bufferTime := 15
    totalMeetings := 0 }

/-- The property requested in the end-to-end scenarios. -/
def prop123 : Property := ⟨"P123", "123 Main St", 350000⟩

/-- The store of scenario A: the property, no leads, agent Jane. -/
def scenarioStore : Store :=
  { properties := [prop123], leads := [], meetings := [], agents := [jane] }

/-- Scenario A request: lead Alice, property P123, no preferred time,
submitted on a Monday. -/
def aliceReq : BookingRequest :=
  { name := "Alice", email := "alice@x.com", phone := none, source := none
    budget := none, preferredPropertyType := none, timeline := none
    notes := none, propertyId := some "P123", preferredDateTime := none }

/-- A request with a preferred time of Monday 10:00 from a lead with a
phone number (used for the fan-out ordering and scenario-D runs, which
reach the fully-booked tier through the preferred-window check). -/
def bobPreferredReq : BookingRequest :=
  { name := "Bob", email := "bob@y.com", phone := some "555-0199"
    source := none, budget := none, preferredPropertyType := none
    timeline := none, notes := none, propertyId := some "P123"
    preferredDateTime := some 600 }

/-- An agent whose working day is Monday 09:00-10:30 with 60-minute
meetings and a 15-minute buffer — a valid configuration under the schema
bounds, used to exercise the lookahead generator near the end of the
working window. -/
def shortDayAgent : Agent :=
  { name := "Sam"
    email := "sam@realty.com"
    phone := none
    isActive := true
    googleCalendarId := some "cal-sam"
    creds := .ok "cal-sam"
    workingHours := ⟨"09:00", "10:30"⟩
    workingDays := ["monday"]
    meetingDuration := 60
    bufferTime := 15
    totalMeetings := 0 }

/-- A stored lead for the duplicate-email scenarios (scenario C). -/
def bobLead : Lead :=
  { name := "Bob", email := "bob@x.com", phone := none, source := "Website"
    assignedTo := "Auto-assigned", budget := none
    preferredPropertyType := none, timeline := none, notes := none
    status := "New", lastContacted := 0 }

/-- The store of scenario C: Bob already exists. -/
def scenarioStoreC : Store :=
  { properties := [prop123], leads := [bobLead], meetings := []
    agents := [jane] }

/-- A second booking request whose email differs from the stored
`bob@x.com` only in letter case. -/
def bobCaseReq : BookingRequest :=
  { name := "Bobby", email := "Bob@X.com", phone := none, source := none
    budget := none, preferredPropertyType := none, timeline := none
    notes := none, propertyId := some "P123", preferredDateTime := none }

/-- First webhook submission for `carl@x.com`, carrying a source value that
the Lead schema accepts. -/
def carlWebhook1 : WebhookRequest :=
  { name := "Carl", email := "carl@x.com", phone := none
    source := some "Website", budget := none, preferredPropertyType := none
    timeline := none, notes := none }

/-- Second webhook submission for `carl@x.com`: again a schema-accepted
source, plus notes and a budget to merge. -/
def carlWebhook2 : WebhookRequest :=
  { name := "Carl", email := "carl@x.com", phone := none
    source := some "Referral", budget := some 400000
    preferredPropertyType := none, timeline := none
    notes := some "wants a garden" }

/-- A webhook re-submission for `carl@x.com` that omits `source`, so the
controller falls back to its default value `Webhook`. -/
def carlWebhookNoSource : WebhookRequest :=
  { name := "Carl", email := "carl@x.com", phone := none, source := none
    budget := none, preferredPropertyType := none, timeline := none
    notes := none }

/-- The empty store. -/
def emptyStore : Store :=
  { properties := [], leads := [], meetings := [], agents := [] }

/-- The store after the first webhook submission for Carl. -/
def carlStore1 : Store := (handleWebhookLead 100 carlWebhook1 emptyStore).2

/-- An agent without a stored access token: `setAgentCredentials` throws. -/
def noTokenAgent : Agent :=
  { jane with
    name := "Noah"
    email := "noah@realty.com"
    googleCalendarId := none
    creds := .error "Agent not connected to Google Calendar" }

/-- An agent whose calendar id is `cal-busy`. -/
def busyCalAgent : Agent :=
  { jane with
    name := "Ann"
    email := "ann@realty.com"
    googleCalendarId := some "cal-busy"
    creds := .ok "cal-busy" }

/-- A provider reporting one busy interval on calendar `cal-busy` and none
elsewhere. -/
def busyForAnnProvider : CalendarProvider :=
  { busy := fun cid _ _ =>
      if cid == "cal-busy" then .ok [⟨600, 660⟩] else .ok []
    reserve := .ok ("evt-2", "https://calendar/evt-2") }

/-- An agent with a malformed working-hours range (end before start). -/
def invertedHoursAgent : Agent :=
  { jane with
    name := "Ivy"
    email := "ivy@realty.com"
    workingHours := ⟨"17:00", "09:00"⟩ }

/-! ## Lemmas about the slot loops -/

lemma slotsFuel_of_le (avail : Nat → Nat → Bool) (dur buf endT : Nat) :
    ∀ fuel cur, endT ≤ cur → slotsFuel avail dur buf endT fuel cur = [] := by
  intro fuel cur h
  cases fuel with
  | zero => rfl
  | succ n => unfold slotsFuel; rw [if_neg (Nat.not_lt.mpr h)]

lemma slotsFuel_stop_le (avail : Nat → Nat → Bool) (dur buf endT : Nat) :
    ∀ fuel cur s, s ∈ slotsFuel avail dur buf endT fuel cur →
      s.stop ≤ endT := by
  intro fuel
  induction fuel with
  | zero =>
    intro cur s hs
    simp [slotsFuel] at hs
  | succ n ih =>
    intro cur s hs
    unfold slotsFuel at hs
    split at hs
    · dsimp only at hs
      split at hs
      · rcases List.mem_cons.mp hs with h | h
        · subst h
          rename_i hcond
          have h2 := (Bool.and_eq_true _ _).mp hcond |>.2
          exact of_decide_eq_true h2
        · exact ih _ _ h
      · exact ih _ _ hs
    · simp at hs

lemma slotsFuel_congr (avail : Nat → Nat → Bool) (dur buf endT : Nat)
    (hstep : 1 ≤ dur + buf) :
    ∀ f₁ f₂ cur, endT - cur ≤ f₁ → endT - cur ≤ f₂ →
      slotsFuel avail dur buf endT f₁ cur =
        slotsFuel avail dur buf endT f₂ cur := by
  intro f₁
  induction f₁ with
  | zero =>
    intro f₂ cur h1 h2
    have hle : endT ≤ cur := Nat.sub_eq_zero_iff_le.mp (Nat.le_zero.mp h1)
    rw [slotsFuel_of_le avail dur buf endT 0 cur hle,
      slotsFuel_of_le avail dur buf endT f₂ cur hle]
  | succ n ih =>
    intro f₂ cur h1 h2
    by_cases hc : cur < endT
    · have hpos : 0 < endT - cur := Nat.sub_pos_of_lt hc
      cases f₂ with
      | zero => omega
      | succ m =>
        unfold slotsFuel
        rw [if_pos hc, if_pos hc]
        have hrec : endT - (cur + dur + buf) ≤ n := by omega
        have hrec2 : endT - (cur + dur + buf) ≤ m := by omega
        have := ih m (cur + dur + buf) hrec hrec2
        simp only [this]
    · have hle : endT ≤ cur := Nat.not_lt.mp hc
      rw [slotsFuel_of_le avail dur buf endT _ cur hle,
        slotsFuel_of_le avail dur buf endT f₂ cur hle]

lemma getAvailableSlots_eq_nil (agent : Agent) (p : CalendarProvider)
    (date duration : Nat) : getAvailableSlots agent p date duration = [] := by
  unfold getAvailableSlots getAvailableSlotsE dateToLocaleLowerCase
  cases agent.creds <;> rfl

lemma getNextAvailableSlotsE_eq_error (agent : Agent)
    (now startDate count : Nat) (h : 0 < count) :
    getNextAvailableSlotsE agent now startDate count = .error .typeError := by
  unfold getNextAvailableSlotsE nextSlotsDays dateToLocaleLowerCase
  simp [h]

lemma getAvailableSlotsBody_stop_le (agent : Agent) (p : CalendarProvider)
    (date duration : Nat) (dayName : String) (s : Slot)
    (hs : s ∈ getAvailableSlotsBody agent p date duration dayName) :
    s.stop ≤ workEndOn agent date := by
  unfold getAvailableSlotsBody at hs
  split at hs
  · exact slotsFuel_stop_le _ _ _ _ _ _ _ hs
  · simp at hs

lemma getAvailableSlotsBody_not_working (agent : Agent)
    (p : CalendarProvider) (date duration : Nat) (dayName : String)
    (hd : ¬ agent.workingDays.contains dayName = true) :
    getAvailableSlotsBody agent p date duration dayName = [] := by
  unfold getAvailableSlotsBody
  rw [if_neg hd]

lemma getAvailableSlotsFixed_stop_le (agent : Agent) (p : CalendarProvider)
    (date duration : Nat) (s : Slot)
    (hs : s ∈ getAvailableSlotsFixed agent p date duration) :
    s.stop ≤ workEndOn agent date := by
  unfold getAvailableSlotsFixed at hs
  split at hs
  · simp at hs
  · exact getAvailableSlotsBody_stop_le _ _ _ _ _ _ hs

lemma getAvailableSlotsFixed_not_working (agent : Agent)
    (p : CalendarProvider) (date duration : Nat)
    (hd : ¬ agent.workingDays.contains (dateWeekday date) = true) :
    getAvailableSlotsFixed agent p date duration = [] := by
  unfold getAvailableSlotsFixed
  split
  · rfl
  · exact getAvailableSlotsBody_not_working _ _ _ _ _ hd

lemma nextSlotsInner_mem (now step endT count : Nat) :
    ∀ fuel slotTime acc t,
      t ∈ nextSlotsInner now step endT count fuel slotTime acc →
      t ∈ acc ∨ (now < t ∧ t < endT) := by
  intro fuel
  induction fuel with
  | zero =>
    intro slotTime acc t ht
    exact .inl ht
  | succ n ih =>
    intro slotTime acc t ht
    unfold nextSlotsInner at ht
    split at ht
    · rcases ih _ _ _ ht with hacc | hnew
      · split at hacc
        · rcases List.mem_append.mp hacc with h | h
          · exact .inl h
          · rename_i hcond _
            right
            have hlt := of_decide_eq_true ((Bool.and_eq_true _ _).mp hcond).1
            constructor
            · simpa using List.mem_singleton.mp h ▸ (by assumption : now < slotTime)
            · simpa using List.mem_singleton.mp h ▸ hlt
        · exact .inl hacc
      · exact .inr hnew
    · exact .inl ht

/-- Every slot start collected by the (weekday-corrected) day loop is either
inherited from the accumulator or lies strictly in the future, strictly
before the working-hours end of some working day. -/
lemma nextSlotsDays_mem (agent : Agent) (now count : Nat) :
    ∀ daysLeft currentDate acc res,
      nextSlotsDays agent now count (fun d => .ok (dateWeekday d))
        daysLeft currentDate acc = .ok res →
      ∀ t ∈ res, t ∈ acc ∨
        (now < t ∧ ∃ c, agent.workingDays.contains (dateWeekday c) = true ∧
          t < workEndOn agent c) := by
  intro daysLeft
  induction daysLeft with
  | zero =>
    intro currentDate acc res hres t ht
    cases hres
    exact .inl ht
  | succ n ih =>
    intro currentDate acc res hres t ht
    unfold nextSlotsDays at hres
    split at hres
    · dsimp only at hres
      rcases ih _ _ _ hres t ht with hacc | hnew
      · split at hacc
        · rcases nextSlotsInner_mem _ _ _ _ _ _ _ _ hacc with h | h
          · exact .inl h
          · right
            refine ⟨h.1, currentDate, by assumption, ?_⟩
            exact h.2
        · exact .inl hacc
      · exact .inr hnew
    · cases hres
      exact .inl ht

/-- Every slot start emitted by the weekday-corrected lookahead generator is
strictly in the future and starts strictly before the working-hours end of
some working day of the agent. -/
lemma getNextAvailableSlotsFixed_mem (agent : Agent)
    (now startDate count : Nat) (t : Nat)
    (ht : t ∈ getNextAvailableSlotsFixed agent now startDate count) :
    now < t ∧ ∃ c, agent.workingDays.contains (dateWeekday c) = true ∧
      t < workEndOn agent c := by
  unfold getNextAvailableSlotsFixed at ht
  split at ht
  · rename_i res hres
    rcases nextSlotsDays_mem agent now count 7 startDate [] res hres t ht
      with h | h
    · simp at h
    · exact h
  · simp at ht

/-! ## Lemmas about agent selection and the booking tail -/

lemma selectAgentSlot_nil (slotsFor : Agent → Nat → Nat → List Slot)
    (p : CalendarProvider) (now : Nat) (pref : Option Nat) :
    selectAgentSlot slotsFor p now pref [] = none := by
  cases pref <;>
    simp [selectAgentSlot, selectPreferred, selectFromSlots, List.find?]

lemma find?_first_of_split {α : Type} (q : α → Bool) (l1 l2 : List α)
    (a : α) (h1 : ∀ b ∈ l1, q b = false) (ha : q a = true) :
    (l1 ++ a :: l2).find? q = some a := by
  induction l1 with
  | nil => simp [List.find?_cons_of_pos _ ha]
  | cons x xs ih =>
    have hx := h1 x (by simp)
    rw [List.cons_append, List.find?_cons_of_neg _ (by simp [hx])]
    exact ih (fun b hb => h1 b (by simp [hb]))

/-- First-fit of the preferred-time loop: the first agent in iteration
order whose calendar is free for the exact preferred window wins. -/
lemma selectPreferred_first_fit (p : CalendarProvider) (t : Nat)
    (l1 l2 : List Agent) (a : Agent)
    (h1 : ∀ b ∈ l1,
      checkAvailability b p t (t + bookingMeetingDuration) = false)
    (ha : checkAvailability a p t (t + bookingMeetingDuration) = true) :
    selectPreferred (l1 ++ a :: l2) p t =
      some (a, ⟨t, t + bookingMeetingDuration⟩) := by
  unfold selectPreferred
  rw [find?_first_of_split _ l1 l2 a h1 ha]
  rfl

lemma meetingSave_setCalendarEventId (now : Nat) (d : MeetingDoc)
    (v : Option String) :
    meetingSave now (setCalendarEventId d v) = meetingSave now d := rfl

/-- Behaviour of the booking tail when the lead re-save and the meeting
creation validate: the meeting is persisted (schema fields only), the agent
counter is bumped, the fan-out steps run and the unit commits with a `201
fully_booked` response whose calendar link is the reservation link when
the external call succeeded and null when it threw. -/
lemma finalizeBooking_spec (p : CalendarProvider) (now : Nat)
    (req : BookingRequest) (store0 : Store) (property : Property)
    (newLead : Lead) (agent : Agent) (slot : Slot) (m : MeetingRecord)
    (hlead : leadValidate { newLead with assignedTo := agent.name } = true)
    (hmeet : meetingSave now (mkMeetingDoc req property newLead agent slot)
      = .ok m) :
    finalizeBooking p now req store0 property newLead agent slot =
      (⟨201, true, "Booking created successfully!", some .fullyBooked,
        some m.dateTime,
        (match p.reserve with | .error _ => none | .ok ev => some ev.2),
        none, none, some agent.name, some property.address⟩,
       ⟨store0.properties,
        store0.leads ++ [{ newLead with assignedTo := agent.name }],
        store0.meetings ++ [m],
        store0.agents.map (fun a =>
          if a.email == agent.email then
            { a with totalMeetings := a.totalMeetings + 1 }
          else a)⟩,
       notifSteps req ++ [Step.commitTransaction]) := by
  unfold finalizeBooking
  rw [if_pos hlead]
  cases hr : p.reserve with
  | error e =>
    simp only [hr, hmeet, meetingSave_setCalendarEventId]
  | ok ev =>
    simp only [hr, hmeet, meetingSave_setCalendarEventId]

/-- Behaviour of the whole orchestrator on a request that passes
validation, references an existing property, has a fresh email, and for
which selection yields an agent and a slot whose meeting document
validates: the run reaches the booking tail of `finalizeBooking_spec`,
for any outcome of the external reservation call. -/
lemma createAutomatedBookingWith_success (slotsFor : Agent → Nat → Nat → List Slot)
    (p : CalendarProvider) (now : Nat) (req : BookingRequest) (store : Store)
    (pid : String) (property : Property) (agent : Agent) (slot : Slot)
    (m : MeetingRecord)
    (hname : (req.name == "") = false)
    (hemail : (req.email == "") = false)
    (hpid : req.propertyId = some pid)
    (hprop : findProperty store pid = some property)
    (hdup : findLeadByEmail store req.email = none)
    (hvalid : leadValidate (mkBookingLead now req) = true)
    (hsel : selectAgentSlot slotsFor p now req.preferredDateTime
      (store.agents.filter bookable) = some (agent, slot))
    (hlead2 : leadValidate
      { mkBookingLead now req with assignedTo := agent.name } = true)
    (hmeet : meetingSave now
      (mkMeetingDoc req property (mkBookingLead now req) agent slot)
      = .ok m) :
    createAutomatedBookingWith slotsFor p now req store =
      (⟨201, true, "Booking created successfully!", some .fullyBooked,
        some m.dateTime,
        (match p.reserve with | .error _ => none | .ok ev => some ev.2),
        none, none, some agent.name, some property.address⟩,
       ⟨store.properties,
        store.leads ++ [{ mkBookingLead now req with assignedTo := agent.name }],
        store.meetings ++ [m],
        store.agents.map (fun a =>
          if a.email == agent.email then
            { a with totalMeetings := a.totalMeetings + 1 }
          else a)⟩,
       notifSteps req ++ [Step.commitTransaction]) := by
  have hne : (store.agents.filter bookable).isEmpty = false := by
    cases hfe : (store.agents.filter bookable).isEmpty
    · rfl
    · rw [List.isEmpty_iff.mp hfe] at hsel
      rw [selectAgentSlot_nil] at hsel
      exact absurd hsel (by simp)
  unfold createAutomatedBookingWith
  rw [if_neg (by simp [hname, hemail, hpid])]
  simp only [hpid, Option.getD_some, hprop, hdup, hvalid, if_true, hne,
    Bool.false_eq_true, if_false, hsel]
  exact finalizeBooking_spec p now req store property (mkBookingLead now req)
    agent slot m hlead2 hmeet

/-! ## Claim theorems -/

/-- C1.  In scenario A (agent Jane active, calendar-linked, Mon-Fri
09:00-17:00, 60-minute meetings, 15-minute buffer, no busy events; lead
Alice requests existing property P123 with no preferred time on a Monday)
the claim predicts `201 fully_booked` with the meeting at Monday 09:00.
The shipped code instead responds `200 lead_only`: the weekday computation
inside `getAvailableSlots` throws a `TypeError`, the catch returns `[]`,
and no slot is ever found.  With the intended weekday computation
(`createAutomatedBookingFixed`) the run produces exactly the claimed
outcome, `201 fully_booked` with the meeting at Monday 09:00 (instant
`setHours 480 9 0 = 540`; `480` is Monday 08:00). -/
theorem c1_scenarioA_divergence :
    (createAutomatedBooking freeProvider 480 aliceReq scenarioStore).1.status
        = 200 ∧
    (createAutomatedBooking freeProvider 480 aliceReq
        scenarioStore).1.bookingStatus = some .leadOnly ∧
    (createAutomatedBooking freeProvider 480 aliceReq
        scenarioStore).1.meetingDateTime = none ∧
    (createAutomatedBookingFixed freeProvider 480 aliceReq
        scenarioStore).1.status = 201 ∧
    (createAutomatedBookingFixed freeProvider 480 aliceReq
        scenarioStore).1.bookingStatus = some .fullyBooked ∧
    (createAutomatedBookingFixed freeProvider 480 aliceReq
        scenarioStore).1.meetingDateTime = some (setHours 480 9 0) := by
  decide

/-- C3.  A booking request that passes field validation and references an
existing property, whose email matches a stored lead after case
normalization (the store keeps lowercased emails and the query value is
lowercased by the same schema setter), is answered `409 Conflict` with a
summary of the existing lead; the store is returned unchanged (no new
Lead, no Meeting) and no transaction/notification step runs. -/
theorem c3_duplicate_email_conflict
    (slotsFor : Agent → Nat → Nat → List Slot) (p : CalendarProvider)
    (now : Nat) (req : BookingRequest) (store : Store) (pid : String)
    (property : Property) (lead0 : Lead)
    (hname : (req.name == "") = false)
    (hemail : (req.email == "") = false)
    (hpid : req.propertyId = some pid)
    (hprop : findProperty store pid = some property)
    (hfind : findLeadByEmail store req.email = some lead0) :
    createAutomatedBookingWith slotsFor p now req store =
      (⟨409, false,
        "A lead with this email already exists. Please contact us directly.",
        none, none, none, some lead0.name, some lead0.status, none, none⟩,
       store, []) := by
  unfold createAutomatedBookingWith
  rw [if_neg (by simp [hname, hemail, hpid])]
  simp only [hpid, Option.getD_some, hprop, hfind]

/-- Witness for C3: the stored lead has email `bob@x.com`; a second booking
request with `Bob@X.com` (case difference only) gets `409` with the summary
of Bob, and the store is unchanged. -/
theorem c3_duplicate_email_conflict_witness :
    createAutomatedBookingWith
        (fun a d dur => getAvailableSlots a freeProvider d dur)
        freeProvider 480 bobCaseReq scenarioStoreC =
      (⟨409, false,
        "A lead with this email already exists. Please contact us directly.",
        none, none, none, some "Bob", some "New", none, none⟩,
       scenarioStoreC, []) :=
  c3_duplicate_email_conflict _ freeProvider 480 bobCaseReq scenarioStoreC
    "P123" prop123 bobLead (by decide) (by decide) rfl rfl rfl

/-- C4.  The availability oracle fails open: with no resolvable
credentials or a failing provider call it answers `true`; it answers
`false` exactly when the credentials resolve and the freebusy query for
the exact window succeeds with a non-empty busy list. -/
theorem c4_checkAvailability_failOpen :
    (∀ (agent : Agent) (p : CalendarProvider) (s e : Nat) (err : String),
        agent.creds = .error err → checkAvailability agent p s e = true) ∧
    (∀ (agent : Agent) (p : CalendarProvider) (s e : Nat)
        (cid err : String), agent.creds = .ok cid →
        p.busy cid s e = .error err → checkAvailability agent p s e = true) ∧
    (∀ (agent : Agent) (p : CalendarProvider) (s e : Nat),
        checkAvailability agent p s e = false ↔
        ∃ cid busy, agent.creds = .ok cid ∧ p.busy cid s e = .ok busy ∧
          busy ≠ []) := by
  refine ⟨?_, ?_, ?_⟩
  · intro agent p s e err h
    unfold checkAvailability
    rw [h]
  · intro agent p s e cid err h1 h2
    unfold checkAvailability
    simp [h1, h2]
  · intro agent p s e
    unfold checkAvailability
    cases h1 : agent.creds with
    | error err => simp
    | ok cid =>
      cases h2 : p.busy cid s e with
      | error err => simp [h2]
      | ok busy => simp [h2, List.length_eq_zero]

/-- Witness for C4: an agent without a stored token is reported available,
by the fail-open clause of the theorem. -/
theorem c4_checkAvailability_failOpen_witness :
    checkAvailability noTokenAgent freeProvider 0 60 = true :=
  c4_checkAvailability_failOpen.1 noTokenAgent freeProvider 0 60
    "Agent not connected to Google Calendar" rfl

/-- C5.  Preferred-time selection is first-fit in iteration order: when a
preferred time is supplied, the first candidate agent whose calendar is
free for exactly `[preferredTime, preferredTime + 60min)` is returned with
that exact window, regardless of any later agents; in particular with two
candidates, busy-then-free, the second wins. -/
theorem c5_preferred_first_fit
    (slotsFor : Agent → Nat → Nat → List Slot) (p : CalendarProvider)
    (now t : Nat) (l1 l2 : List Agent) (a : Agent)
    (h1 : ∀ b ∈ l1,
      checkAvailability b p t (t + bookingMeetingDuration) = false)
    (ha : checkAvailability a p t (t + bookingMeetingDuration) = true) :
    selectAgentSlot slotsFor p now (some t) (l1 ++ a :: l2) =
      some (a, ⟨t, t + bookingMeetingDuration⟩) := by
  unfold selectAgentSlot
  dsimp only
  rw [selectPreferred_first_fit p t l1 l2 a h1 ha]

/-- C2 (amended).  In every execution of `createAutomatedBooking` that
reaches the fully-booked outcome, the notification fan-out steps are all
dispatched BEFORE the commit of the atomic unit: the trace is a non-empty
block of notification dispatches followed by `commitTransaction` (the
source awaits the fan-out inside the transaction scope, lines 214-272,
and commits afterwards at line 274; the claimed order — commit first,
notifications after — is the reverse of what the code does). -/
theorem c2_commit_notification_order
    (slotsFor : Agent → Nat → Nat → List Slot) (p : CalendarProvider)
    (now : Nat) (req : BookingRequest) (store : Store)
    (resp : BookingResponse) (st2 : Store) (tr : List Step)
    (hEq : createAutomatedBookingWith slotsFor p now req store
      = (resp, st2, tr))
    (hFB : resp.bookingStatus = some .fullyBooked) :
    ∃ ns, tr = ns ++ [Step.commitTransaction] ∧ ns ≠ [] ∧
      ns.all isNotification = true := by
  unfold createAutomatedBookingWith finalizeBooking at hEq
  repeat' first | split at hEq | dsimp only at hEq
  all_goals
    simp only [Prod.mk.injEq] at hEq
  all_goals
    obtain ⟨h1, h2, h3⟩ := hEq
  all_goals
    subst h1
  all_goals
    subst h3
  all_goals
    first
      | (refine ⟨notifSteps req, rfl, ?_, ?_⟩ <;>
          by_cases hp : truthyS req.phone = true <;>
          simp [notifSteps, hp, isNotification])
      | (exfalso; simp at hFB)

/-- Witness for C2 (amended): the concrete fully-booked run of the
counterexample scenario indeed has its trace equal to a non-empty
notification block followed by the commit. -/
theorem c2_commit_notification_order_witness :
    ∃ ns, (createAutomatedBooking freeProvider 480 bobPreferredReq
        scenarioStore).2.2 = ns ++ [Step.commitTransaction] ∧ ns ≠ [] ∧
      ns.all isNotification = true :=
  c2_commit_notification_order
    (fun a d dur => getAvailableSlots a freeProvider d dur) freeProvider 480
    bobPreferredReq scenarioStore _ _ _ rfl (by decide)

/-- C2 counterexample.  A concrete execution of the shipped
`createAutomatedBooking` that reaches `fully_booked` (lead Bob, preferred
time Monday 10:00, agent Jane free) dispatches every notification BEFORE
`commitTransaction`: the trace ends with the commit, and the claim
predicate "commitTransaction precedes every notification dispatch" is
false for it. -/
theorem c2_commit_order_counterexample :
    (createAutomatedBooking freeProvider 480 bobPreferredReq
        scenarioStore).1.bookingStatus = some .fullyBooked ∧
    (createAutomatedBooking freeProvider 480 bobPreferredReq
        scenarioStore).2.2 =
      [Step.sendMeetingConfirmation, Step.notifyAgentOfNewMeeting,
        Step.sendSMS, Step.socketNotifyAgent, Step.socketNotifyAdmin,
        Step.commitTransaction] ∧
    commitPrecedesNotifications
      (createAutomatedBooking freeProvider 480 bobPreferredReq
        scenarioStore).2.2 = false := by
  decide

/-- Witness for C5: the preferred window Monday 10:00-11:00 is busy for
the first candidate (Ann) and free for the second (Jane); selection
returns Jane with exactly that window. -/
theorem c5_preferred_first_fit_witness :
    selectAgentSlot (fun _ _ _ => []) busyForAnnProvider 0 (some 600)
        ([busyCalAgent] ++ jane :: []) =
      some (jane, ⟨600, 600 + bookingMeetingDuration⟩) :=
  c5_preferred_first_fit (fun _ _ _ => []) busyForAnnProvider 0 600
    [busyCalAgent] [] jane (by decide) (by decide)

/-- C6 (amended).  On the shipped code both generators emit no slots at
all — the weekday computation throws, so `getAvailableSlots` returns `[]`
and `getNextAvailableSlots` propagates the error (first two conjuncts).
Under the intended weekday computation, the per-day generator satisfies
the claimed invariant: every emitted slot ends at or before
`workingHours.end` of the requested day, and a non-working weekday yields
`[]` (third and fourth conjuncts); the lookahead generator respects
`workingDays` and emits only future starts strictly before the
working-hours end of some working day (fifth conjunct) — but it does NOT
bound the slot END by `workingHours.end`, which the counterexample below
exhibits. -/
theorem c6_slot_generator_bounds :
    (∀ (agent : Agent) (p : CalendarProvider) (date dur : Nat),
        getAvailableSlots agent p date dur = []) ∧
    (∀ (agent : Agent) (now startDate count : Nat), 0 < count →
        getNextAvailableSlotsE agent now startDate count
          = .error .typeError) ∧
    (∀ (agent : Agent) (p : CalendarProvider) (date dur : Nat) (s : Slot),
        s ∈ getAvailableSlotsFixed agent p date dur →
        s.stop ≤ workEndOn agent date) ∧
    (∀ (agent : Agent) (p : CalendarProvider) (date dur : Nat),
        ¬ agent.workingDays.contains (dateWeekday date) = true →
        getAvailableSlotsFixed agent p date dur = []) ∧
    (∀ (agent : Agent) (now startDate count t : Nat),
        t ∈ getNextAvailableSlotsFixed agent now startDate count →
        now < t ∧ ∃ c, agent.workingDays.contains (dateWeekday c) = true ∧
          t < workEndOn agent c) := by
  refine ⟨?_, ?_, ?_, ?_, ?_⟩
  · intro agent p date dur
    exact getAvailableSlots_eq_nil agent p date dur
  · intro agent now startDate count h
    exact getNextAvailableSlotsE_eq_error agent now startDate count h
  · intro agent p date dur s hs
    exact getAvailableSlotsFixed_stop_le agent p date dur s hs
  · intro agent p date dur hd
    exact getAvailableSlotsFixed_not_working agent p date dur hd
  · intro agent now startDate count t ht
    exact getNextAvailableSlotsFixed_mem agent now startDate count t ht

/-- Witness for C6 (amended): on a Saturday (day 5, instant 7200) the
per-day generator with the intended weekday computation emits nothing for
Jane, whose working days are Monday-Friday. -/
theorem c6_slot_generator_bounds_witness :
    getAvailableSlotsFixed jane freeProvider 7200 60 = [] :=
  c6_slot_generator_bounds.2.2.2.1 jane freeProvider 7200 60 (by decide)

/-- C6 counterexample.  For a schema-valid configuration (working Monday
09:00-10:30, 60-minute meetings, 15-minute buffer) the lookahead generator
with the intended weekday computation emits the start 10:15 (instant 615),
whose meeting window ends at 11:15 — after `workingHours.end` 10:30
(instant 630): the claimed end-bound invariant is false for
`getNextAvailableSlots`. -/
theorem c6_slot_bounds_counterexample :
    getNextAvailableSlotsFixed shortDayAgent 0 0 3 = [540, 615] ∧
    615 ∈ getNextAvailableSlotsFixed shortDayAgent 0 0 3 ∧
    workEndOn shortDayAgent 615 < 615 + shortDayAgent.meetingDuration := by
  decide

/-- C7.  The slot-generation loop of `getAvailableSlots` terminates and is
empty on malformed working-hours ranges: (1) whenever `endT ≤ cur` the
loop yields `[]` at any fuel; (2) an agent whose working-hours end does not
exceed its start yields `[]` from the (weekday-corrected) generator;
(3) under the schema bounds (`meetingDuration ∈ [15,240]`,
`bufferTime ∈ [0,60]`) the loop result is independent of the fuel once the
fuel covers `endT - cur` iterations — the cursor advances by
`dur + buf > 0` each iteration, so the loop terminates. -/
theorem c7_slot_loop_termination :
    (∀ (avail : Nat → Nat → Bool) (dur buf endT fuel cur : Nat),
        endT ≤ cur → slotsFuel avail dur buf endT fuel cur = []) ∧
    (∀ (agent : Agent) (p : CalendarProvider) (date dur : Nat),
        workEndOn agent date ≤ workStartOn agent date →
        getAvailableSlotsFixed agent p date dur = []) ∧
    (∀ (avail : Nat → Nat → Bool) (dur buf endT f₁ f₂ cur : Nat),
        15 ≤ dur → dur ≤ 240 → buf ≤ 60 →
        endT - cur ≤ f₁ → endT - cur ≤ f₂ →
        slotsFuel avail dur buf endT f₁ cur
          = slotsFuel avail dur buf endT f₂ cur) := by
  refine ⟨?_, ?_, ?_⟩
  · intro avail dur buf endT fuel cur h
    exact slotsFuel_of_le avail dur buf endT fuel cur h
  · intro agent p date dur h
    unfold getAvailableSlotsFixed
    split
    · rfl
    · unfold getAvailableSlotsBody
      split
      · exact slotsFuel_of_le _ _ _ _ _ _ h
      · rfl
  · intro avail dur buf endT f₁ f₂ cur h15 _ _ hf1 hf2
    exact slotsFuel_congr avail dur buf endT (by omega) f₁ f₂ cur hf1 hf2

/-- Witness for C7: Ivy works 17:00-09:00 (end before start); the
generator emits nothing for her on a Monday, and the loop with duration 60
and buffer 15 gives the same (empty) result at fuel 0 and fuel 1000 for a
window already exhausted. -/
theorem c7_slot_loop_termination_witness :
    getAvailableSlotsFixed invertedHoursAgent freeProvider 480 60 = [] ∧
    slotsFuel (fun _ _ => true) 60 15 540 1000 540
      = slotsFuel (fun _ _ => true) 60 15 540 0 540 :=
  ⟨c7_slot_loop_termination.2.1 invertedHoursAgent freeProvider 480 60
      (by decide),
   c7_slot_loop_termination.2.2 (fun _ _ => true) 60 15 540 1000 0 540
      (by decide) (by decide) (by decide) (by decide) (by decide)⟩

/-- C8.  When selection has produced an agent and a slot and the external
calendar event creation throws, the booking still commits and responds
`201 fully_booked` with a null calendar link; the Meeting record is
persisted exactly as saved from the plain meeting document (`m`, which by
the schema carries no external event reference), the trace commits and
never aborts, and the outcome tier is unchanged. -/
theorem c8_reservation_failure_nonfatal
    (slotsFor : Agent → Nat → Nat → List Slot) (p : CalendarProvider)
    (now : Nat) (req : BookingRequest) (store : Store) (pid : String)
    (property : Property) (agent : Agent) (slot : Slot) (m : MeetingRecord)
    (err : String)
    (hname : (req.name == "") = false)
    (hemail : (req.email == "") = false)
    (hpid : req.propertyId = some pid)
    (hprop : findProperty store pid = some property)
    (hdup : findLeadByEmail store req.email = none)
    (hvalid : leadValidate (mkBookingLead now req) = true)
    (hsel : selectAgentSlot slotsFor p now req.preferredDateTime
      (store.agents.filter bookable) = some (agent, slot))
    (hlead2 : leadValidate
      { mkBookingLead now req with assignedTo := agent.name } = true)
    (hmeet : meetingSave now
      (mkMeetingDoc req property (mkBookingLead now req) agent slot)
      = .ok m)
    (hres : p.reserve = .error err) :
    createAutomatedBookingWith slotsFor p now req store =
      (⟨201, true, "Booking created successfully!", some .fullyBooked,
        some m.dateTime, none, none, none, some agent.name,
        some property.address⟩,
       ⟨store.properties,
        store.leads ++ [{ mkBookingLead now req with assignedTo := agent.name }],
        store.meetings ++ [m],
        store.agents.map (fun a =>
          if a.email == agent.email then
            { a with totalMeetings := a.totalMeetings + 1 }
          else a)⟩,
       notifSteps req ++ [Step.commitTransaction]) := by
  rw [createAutomatedBookingWith_success slotsFor p now req store pid
    property agent slot m hname hemail hpid hprop hdup hvalid hsel hlead2
    hmeet]
  rw [hres]

/-- Witness for C8 (scenario D): Bob books the free Monday 10:00 window
with Jane while event insertion throws; the response is `201 fully_booked`
with a null calendar link and the meeting record is persisted without any
event reference. -/
theorem c8_reservation_failure_nonfatal_witness :
    createAutomatedBookingWith
        (fun a d dur => getAvailableSlots a reserveFailProvider d dur)
        reserveFailProvider 480 bobPreferredReq scenarioStore =
      (⟨201, true, "Booking created successfully!", some .fullyBooked,
        some 600, none, none, none, some "Jane", some "123 Main St"⟩,
       ⟨[prop123],
        [{ mkBookingLead 480 bobPreferredReq with assignedTo := "Jane" }],
        [⟨"Bob", "123 Main St", 600, "Scheduled",
          "Auto-booked via website form.", "Jane"⟩],
        [{ jane with totalMeetings := 1 }]⟩,
       notifSteps bobPreferredReq ++ [Step.commitTransaction]) :=
  c8_reservation_failure_nonfatal
    (fun a d dur => getAvailableSlots a reserveFailProvider d dur)
    reserveFailProvider 480 bobPreferredReq scenarioStore "P123" prop123
    jane ⟨600, 660⟩
    ⟨"Bob", "123 Main St", 600, "Scheduled",
      "Auto-booked via website form.", "Jane"⟩
    "Failed to create calendar event"
    (by decide) (by decide) rfl rfl rfl (by decide) rfl (by decide) rfl rfl

/-- C9.  Webhook re-ingestion with the same email and schema-accepted
source values is idempotent as the claim says: the first submission
creates Carl, the second responds `200` with action `updated`, exactly one
Lead with that email remains, and `source`, `lastContacted`, `notes` and
`budget` are merged in place.  But the controller default `source` value
`Webhook` is not in the Lead schema source enum, so a re-submission that
omits `source` makes the save throw a `ValidationError`: the endpoint
answers `400 Validation Error` with no action and merges nothing — the
claim fails for such pairs, contradicting the intent evident from the
controller (whose own default is the offending value). -/
theorem c9_webhook_reingestion :
    (handleWebhookLead 100 carlWebhook1 emptyStore).1 =
      ⟨201, true, "Lead created successfully", some "created"⟩ ∧
    (handleWebhookLead 200 carlWebhook2 carlStore1).1 =
      ⟨200, true, "Lead updated successfully", some "updated"⟩ ∧
    leadCountByEmail (handleWebhookLead 200 carlWebhook2 carlStore1).2
      "carl@x.com" = 1 ∧
    (handleWebhookLead 200 carlWebhook2 carlStore1).2.leads =
      [{ name := "Carl", email := "carl@x.com", phone := none
         source := "Referral", assignedTo := "Auto-assigned"
         budget := some 400000, preferredPropertyType := none
         timeline := none, notes := some "wants a garden"
         status := "New", lastContacted := 200 }] ∧
    (handleWebhookLead 200 carlWebhookNoSource carlStore1).1 =
      ⟨400, false, "Validation Error", none⟩ ∧
    (handleWebhookLead 200 carlWebhookNoSource carlStore1).2.leads =
      carlStore1.leads := by
  decide

/-- C10.  The Meeting schema declares no external calendar event field:
writing `calendarEventId` onto a meeting document does not change what
`save` persists (first conjunct), and in any booking run that reaches the
tail — including one whose external reservation succeeds with an event id
— the persisted meeting record is exactly the save of the plain meeting
document, which by the `MeetingRecord` type carries only the declared
schema fields (second conjunct). -/
theorem c10_meeting_schema_frame :
    (∀ (now : Nat) (d : MeetingDoc) (v : Option String),
        meetingSave now (setCalendarEventId d v) = meetingSave now d) ∧
    (∀ (slotsFor : Agent → Nat → Nat → List Slot) (p : CalendarProvider)
        (now : Nat) (req : BookingRequest) (store : Store) (pid : String)
        (property : Property) (agent : Agent) (slot : Slot)
        (m : MeetingRecord),
        (req.name == "") = false → (req.email == "") = false →
        req.propertyId = some pid →
        findProperty store pid = some property →
        findLeadByEmail store req.email = none →
        leadValidate (mkBookingLead now req) = true →
        selectAgentSlot slotsFor p now req.preferredDateTime
          (store.agents.filter bookable) = some (agent, slot) →
        leadValidate
          { mkBookingLead now req with assignedTo := agent.name } = true →
        meetingSave now
          (mkMeetingDoc req property (mkBookingLead now req) agent slot)
          = .ok m →
        (createAutomatedBookingWith slotsFor p now req store).2.1.meetings
          = store.meetings ++ [m]) := by
  constructor
  · intro now d v
    exact meetingSave_setCalendarEventId now d v
  · intro slotsFor p now req store pid property agent slot m hname hemail
      hpid hprop hdup hvalid hsel hlead2 hmeet
    rw [createAutomatedBookingWith_success slotsFor p now req store pid
      property agent slot m hname hemail hpid hprop hdup hvalid hsel hlead2
      hmeet]

/-- Witness for C10: in the concrete fully-booked run whose reservation
succeeds with event id `evt-1`, the persisted meetings are exactly the old
list extended with the schema-projected record (no event reference). -/
theorem c10_meeting_schema_frame_witness :
    (createAutomatedBookingWith
        (fun a d dur => getAvailableSlots a freeProvider d dur)
        freeProvider 480 bobPreferredReq scenarioStore).2.1.meetings =
      scenarioStore.meetings ++
        [⟨"Bob", "123 Main St", 600, "Scheduled",
          "Auto-booked via website form.", "Jane"⟩] :=
  c10_meeting_schema_frame.2
    (fun a d dur => getAvailableSlots a freeProvider d dur)
    freeProvider 480 bobPreferredReq scenarioStore "P123" prop123 jane
    ⟨600, 660⟩
    ⟨"Bob", "123 Main St", 600, "Scheduled",
      "Auto-booked via website form.", "Jane"⟩
    (by decide) (by decide) rfl rfl rfl (by decide) rfl (by decide) rfl

end PMB

